import Mathlib

/-!
# Verification of the TrueMoney KRNL-gated token transfer protocol

Shallow embedding of the repository's client builder (`executeTokenTransfer`,
`executeKrnl`), the Express risk proxy (`processValue`, `filterRiskFields`,
`processBatchResults`), the Solidity `TokenContract` (`checkTransferAllowed`,
`transferWithKRNL`, `transferFromWithKRNL`, legacy `transfer`/`transferFrom`)
and the forge test script's `simulateTokenTransferVerification`.

Modelling conventions:
* machine integers are `Nat` (addresses are `uint160` values, token amounts
  `uint256` values); overflow is made explicit where it matters;
* `keccak256(abi.encodePacked(from, to, amount, ts))` over the fixed type
  vector `(address, address, uint256, uint256)` is injective, so the mapping
  key is modelled as the tuple itself (`TransferKey`);
* reverting Solidity calls and throwing JS functions return `Except String`;
  the transaction wrappers (`callTransferWithKRNL`, ...) roll the state back
  on error, mirroring the EVM's atomic revert;
* JavaScript numbers appearing as token amounts are modelled as exact
  decimals `m / 10^d` (`JsAmount`); `NaN` is outside the model.
-/

/-- Solidity `address` values (`uint160`). -/
abbrev Address := Nat

/-! ## ABI encoding of static tuples

`abi.encode` of a tuple of static types is the concatenation of one 32-byte
big-endian word per component (an `address` is left-padded to 32 bytes).
This is what `ethers.AbiCoder.encode(["address","uint256"], ...)` produces
in `executeTokenTransfer` and what `abi.encode(to, amount)` produces in the
`onlyAuthorized` modifier arguments. -/

/-- Big-endian byte string of `n`, exactly `w` bytes (truncates to `n % 256^w`). -/
def natToBytesBE : Nat → Nat → List Nat
  | 0, _ => []
  | w + 1, n => natToBytesBE w (n / 256) ++ [n % 256]

/-- Read a big-endian byte string back as a number. -/
def bytesToNatBE (bs : List Nat) : Nat :=
  bs.foldl (fun acc b => acc * 256 + b) 0

/-- Encoding `abi.encode(address, uint256)` — two 32-byte words. -/
def abiEncodeAddressUint256 (a v : Nat) : List Nat :=
  natToBytesBE 32 a ++ natToBytesBE 32 v

/-- ABI-decode of the type list `["address","uint256"]` on a 64-byte blob. -/
def abiDecodeAddressUint256 (bs : List Nat) : Nat × Nat :=
  (bytesToNatBE (bs.take 32), bytesToNatBE (bs.drop 32))

/-- Encoding `abi.encode(address, address, uint256)` — used by `transferFromWithKRNL`. -/
def abiEncodeAddrAddrUint256 (a b v : Nat) : List Nat :=
  natToBytesBE 32 a ++ natToBytesBE 32 b ++ natToBytesBE 32 v

theorem natToBytesBE_length (w n : Nat) : (natToBytesBE w n).length = w := by
  induction w generalizing n with
  | zero => rfl
  | succ w ih => simp [natToBytesBE, ih]

theorem bytesToNatBE_append (xs : List Nat) (b : Nat) :
    bytesToNatBE (xs ++ [b]) = bytesToNatBE xs * 256 + b := by
  simp [bytesToNatBE, List.foldl_append]

theorem bytesToNatBE_natToBytesBE (w n : Nat) (h : n < 256 ^ w) :
    bytesToNatBE (natToBytesBE w n) = n := by
  induction w generalizing n with
  | zero =>
    simp [natToBytesBE, bytesToNatBE]
    omega
  | succ w ih =>
    have hdiv : n / 256 < 256 ^ w := by
      rw [Nat.div_lt_iff_lt_mul (by norm_num : 0 < 256)]
      calc n < 256 ^ (w + 1) := h
        _ = 256 ^ w * 256 := by ring
    rw [natToBytesBE, bytesToNatBE_append, ih _ hdiv]
    omega

/-! ## JavaScript decimal amounts and `toWei`

A UI amount is an exact decimal `m / 10^d` (the browser form feeds
`Number(transferAmount)` into `executeTokenTransfer`); `m : Int` so that
the `amount <= 0` validation is expressible.  `toWei` is
`ethers.parseUnits(amount.toString(), 18)`, defined when `d ≤ 18`. -/

structure JsAmount where
  m : Int
  d : Nat
  deriving DecidableEq, Repr

/-- The rational value of a `JsAmount` (for stating scale facts). -/
def JsAmount.val (a : JsAmount) : ℚ := (a.m : ℚ) / (10 : ℚ) ^ a.d

/-- The value `ethers.parseUnits(amount.toString(), 18)` for a non-negative amount with
at most 18 decimals: the amount scaled to 18-decimal token units. -/
def toWei (a : JsAmount) : Nat :=
  a.m.toNat * 10 ^ (18 - a.d)

/-- The wei value is the amount scaled by `10^18`: `toWei a * 10^d = m * 10^18`. -/
theorem toWei_scale (a : JsAmount) (hd : a.d ≤ 18) (hm : 0 ≤ a.m) :
    (toWei a : Int) * 10 ^ a.d = a.m * 10 ^ 18 := by
  have hmt : (a.m.toNat : Int) = a.m := Int.toNat_of_nonneg hm
  have hsum : 18 - a.d + a.d = 18 := by omega
  rw [toWei]
  push_cast
  rw [hmt, mul_assoc, ← pow_add, hsum]
  norm_num

/-! ## The on-chain data model (`TokenContract` in `ERC20.sol`) -/

/-- The main payload with the transaction decision, fields exactly as in the
contract's `WebhookPayload` struct (alphabetical order). -/
structure WebhookPayload where
  createdAt : String
  customerId : String
  externalTransactionId : String
  id : String
  reason : String
  riskLevel : String
  riskScore : Nat
  status : String
  transactionDate : String
  transactionId : String
  transactionType : String
  updatedAt : String
  workspaceId : String
  deriving DecidableEq, Repr

/-- The `WebhookResponse` struct: event type plus the decision payload. -/
structure WebhookResponse where
  eventType : String
  payload : WebhookPayload
  deriving DecidableEq, Repr

/-- One entry of the decoded `KernelResponse[]` array.  The contract only ever
ABI-decodes `result` for entries with `kernelId == 1657`; we model `result`
as the `WebhookResponse` those bytes decode to. -/
structure KernelResponse where
  kernelId : Nat
  result : WebhookResponse
  err : String
  deriving DecidableEq, Repr

/-- Modelled from the spec: `KRNL.sol` (the `KRNL` base contract with the
`onlyAuthorized` modifier) is not under `src/`.  Per spec §4.3 the modifier
accepts a call iff the bundle's opaque `auth` is a valid token-authority
signature over exactly the encoded function parameters presented by the call.
We model the signature as the byte blob the authority signed (`authParams`)
together with its validity bit (`authValid`). -/
structure KrnlPayload where
  authValid : Bool
  authParams : List Nat
  kernelResponses : List KernelResponse
  deriving DecidableEq, Repr

/-- Modelled from the spec: the `onlyAuthorized(krnlPayload, params)` check of
`KRNL.sol` — signature valid and signed over byte-identical parameters. -/
def onlyAuthorized (p : KrnlPayload) (params : List Nat) : Bool :=
  p.authValid && p.authParams == params

/-- The argument of `keccak256(abi.encodePacked(from, to, amount, block.timestamp))`.
Over the fixed type vector `(address, address, uint256, uint256)` the packed
encoding and keccak are injective, so the tuple itself serves as the key. -/
structure TransferKey where
  fromAddr : Address
  toAddr : Address
  amount : Nat
  timestamp : Nat
  deriving DecidableEq, Repr

/-- A `TransferAssessed` event record. -/
structure TransferAssessedEvent where
  fromAddr : Address
  toAddr : Address
  amount : Nat
  status : String
  allowed : Bool
  timestamp : Nat
  deriving DecidableEq, Repr

/-- Solidity mappings return the zero value on absent keys; the zero value of
`WebhookResponse` is the all-empty record. -/
def emptyWebhookResponse : WebhookResponse :=
  ⟨"", ⟨"", "", "", "", "", "", 0, "", "", "", "", "", ""⟩⟩

/-- Contract storage: ERC20 balances and allowances plus the
`transferAssessments` mapping; the emitted event log is carried alongside. -/
structure ContractState where
  balances : Address → Nat
  allowances : Address → Address → Nat
  transferAssessments : TransferKey → WebhookResponse
  events : List TransferAssessedEvent

def MAX_UINT256 : Nat := 2 ^ 256 - 1

/-- Getter `getTransferAssessment(bytes32)` — reads the public mapping. -/
def getTransferAssessment (s : ContractState) (key : TransferKey) : WebhookResponse :=
  s.transferAssessments key

/-- First kernel response whose `kernelId` is 1657 — exactly the entry the
contract's loop processes (it returns at the first match). -/
def find1657 (rs : List KernelResponse) : Option KernelResponse :=
  rs.find? (fun r => r.kernelId == 1657)

/-- Function `checkTransferAllowed`: scan for the first kernel-1657 response; store its
decoded `WebhookResponse` under the transfer hash, emit `TransferAssessed`,
and answer whether `payload.status` hashes equal to `"approved"` (string
keccak equality is string equality).  No match: plain `false`, no writes. -/
def checkTransferAllowed (s : ContractState) (p : KrnlPayload)
    (fromAddr toAddr amount ts : Nat) : ContractState × Bool :=
  match find1657 p.kernelResponses with
  | none => (s, false)
  | some r =>
    let response := r.result
    let key : TransferKey := ⟨fromAddr, toAddr, amount, ts⟩
    let allowed := response.payload.status == "approved"
    ({ s with
        transferAssessments := fun k => if k = key then response else s.transferAssessments k,
        events := s.events ++ [⟨fromAddr, toAddr, amount, response.payload.status, allowed, ts⟩] },
     allowed)

/-- OpenZeppelin `ERC20._transfer`/`_update` semantics (the contract inherits
`@openzeppelin/contracts/token/ERC20/ERC20.sol`): revert on zero addresses or
insufficient balance, otherwise debit `fromAddr` then credit `toAddr`. -/
def ercTransfer (s : ContractState) (fromAddr toAddr amount : Nat) :
    Except String ContractState :=
  if fromAddr == 0 then .error "ERC20: transfer from the zero address"
  else if toAddr == 0 then .error "ERC20: transfer to the zero address"
  else if s.balances fromAddr < amount then .error "ERC20: transfer amount exceeds balance"
  else
    let b1 := fun a => if a = fromAddr then s.balances fromAddr - amount else s.balances a
    let b2 := fun a => if a = toAddr then b1 toAddr + amount else b1 a
    .ok { s with balances := b2 }

/-- OpenZeppelin `ERC20._spendAllowance`: an allowance of `MAX_UINT256` is
infinite; otherwise require it covers `amount` and decrease it. -/
def spendAllowance (s : ContractState) (owner spender amount : Nat) :
    Except String ContractState :=
  let current := s.allowances owner spender
  if current == MAX_UINT256 then .ok s
  else if current < amount then .error "ERC20: insufficient allowance"
  else .ok { s with
    allowances := fun o sp => if o = owner ∧ sp = spender then current - amount else s.allowances o sp }

/-- Function `transferWithKRNL(to, amount, krnlPayload)` called by `sender` at block
timestamp `ts`: `onlyAuthorized` over `abi.encode(to, amount)`, zero-address
check, risk gate, then the ERC20 transfer. -/
def transferWithKRNL (s : ContractState) (sender toAddr amount : Nat)
    (p : KrnlPayload) (ts : Nat) : Except String (ContractState × Bool) :=
  if !onlyAuthorized p (abiEncodeAddressUint256 toAddr amount) then
    .error "Unauthorized call"
  else if toAddr == 0 then
    .error "ERC20: transfer to the zero address"
  else
    let res := checkTransferAllowed s p sender toAddr amount ts
    if !res.2 then .error "Transfer denied due to risk assessment"
    else (ercTransfer res.1 sender toAddr amount).map (fun s2 => (s2, true))

/-- Function `transferFromWithKRNL(from, to, amount, krnlPayload)` called by `msgSender`:
`onlyAuthorized` over `abi.encode(from, to, amount)`, zero-address checks,
risk gate, spend allowance, then the ERC20 transfer. -/
def transferFromWithKRNL (s : ContractState) (msgSender fromAddr toAddr amount : Nat)
    (p : KrnlPayload) (ts : Nat) : Except String (ContractState × Bool) :=
  if !onlyAuthorized p (abiEncodeAddrAddrUint256 fromAddr toAddr amount) then
    .error "Unauthorized call"
  else if fromAddr == 0 then
    .error "ERC20: transfer from the zero address"
  else if toAddr == 0 then
    .error "ERC20: transfer to the zero address"
  else
    let res := checkTransferAllowed s p fromAddr toAddr amount ts
    if !res.2 then .error "Transfer denied due to risk assessment"
    else do
      let s2 ← spendAllowance res.1 fromAddr msgSender amount
      let s3 ← ercTransfer s2 fromAddr toAddr amount
      .ok (s3, true)

/-- The overridden legacy `transfer(to, amount)`: unconditional revert. -/
def transfer (s : ContractState) (toAddr amount : Nat) :
    Except String (ContractState × Bool) :=
  .error "Use transfer with KRNL payload"

/-- The overridden legacy `transferFrom(from, to, amount)`: unconditional revert. -/
def transferFrom (s : ContractState) (fromAddr toAddr amount : Nat) :
    Except String (ContractState × Bool) :=
  .error "Use transferFrom with KRNL payload"

/-! ### Transaction-level wrappers

The EVM rolls back every storage write of a reverted call; a call is a state
transition that keeps the pre-state on error. -/

def runCall (s : ContractState) (r : Except String (ContractState × Bool)) :
    ContractState × Except String Bool :=
  match r with
  | .ok (s2, b) => (s2, .ok b)
  | .error e => (s, .error e)

def callTransferWithKRNL (s : ContractState) (sender toAddr amount : Nat)
    (p : KrnlPayload) (ts : Nat) : ContractState × Except String Bool :=
  runCall s (transferWithKRNL s sender toAddr amount p ts)

def callTransferFromWithKRNL (s : ContractState) (msgSender fromAddr toAddr amount : Nat)
    (p : KrnlPayload) (ts : Nat) : ContractState × Except String Bool :=
  runCall s (transferFromWithKRNL s msgSender fromAddr toAddr amount p ts)

def callTransfer (s : ContractState) (toAddr amount : Nat) :
    ContractState × Except String Bool :=
  runCall s (transfer s toAddr amount)

def callTransferFrom (s : ContractState) (fromAddr toAddr amount : Nat) :
    ContractState × Except String Bool :=
  runCall s (transferFrom s fromAddr toAddr amount)

/-! ## The client-side Attestation Request Builder

`executeTokenTransfer` (frontend `tokenTransfer.ts`) validates its inputs,
builds the ComPilot kernel request body, ABI-encodes the function parameters
and only then performs the single network call `executeKernels(...)`.  We
embed everything up to (and excluding) the network call; an `Except.error`
is a locally thrown error, so an `Except.ok` result is exactly "a kernel
request gets issued".  `Date.now()` / `new Date().toISOString()` are the
environment inputs `now` / `nowIso`; the fractional base-36 digit string of
`Math.random()` is the environment input `rand` (so
`Math.random().toString(36)` is `"0." ++ rand`, empty `rand` for an integral
draw, and `.substring(2, 10)` is `rand.take 8`). -/

/-- The value `Math.random().toString(36).substring(2, 10)` (JS strings are sliced by
code units; we work on the character list). -/
def randomSuffix (rand : String) : String :=
  String.mk (rand.data.take 8)

/-- The generated unique id: `"tx-" + Date.now() + "-" + random suffix`. -/
def genTxId (now : Nat) (rand : String) : String :=
  "tx-" ++ toString now ++ "-" ++ randomSuffix rand

structure Fees where
  networkFeeAmount : JsAmount
  platformFeeAmount : JsAmount
  networkFeeCurrencyCode : String
  platformFeeCurrencyCode : String
  deriving DecidableEq, Repr

structure TransactionInfo where
  direction : String
  currencyCode : String
  blockchain : String
  chainId : String
  hash : String
  amount : JsAmount
  fees : Fees
  deriving DecidableEq, Repr

structure TransactionMethod where
  methodType : String
  accountId : String
  deriving DecidableEq, Repr

structure Institution where
  name : String
  code : String
  deriving DecidableEq, Repr

structure Party where
  partyType : String
  name : String
  transactionMethod : TransactionMethod
  institution : Option Institution
  deriving DecidableEq, Repr

/-- The `body` object of `kernelPayload[kernelId].parameters`. -/
structure AttestationBody where
  customerId : String
  externalTransactionId : String
  transactionDate : String
  transactionType : String
  transactionSubType : String
  transactionInfo : TransactionInfo
  originator : Party
  beneficiary : Party
  deriving DecidableEq, Repr

/-- The kernel request data (`senderAddress` plus the nested body). -/
structure KernelRequestData where
  senderAddress : String
  body : AttestationBody
  deriving DecidableEq, Repr

/-- The literal request body built by `executeTokenTransfer`: every field of
`transactionInfo`, `originator` and `beneficiary` is a hard-coded constant —
in particular `transactionInfo.amount` is the literal `0.5` — and only
`externalTransactionId` / `transactionDate` vary. -/
def buildAttestationBody (uniqueTxId nowIso : String) : AttestationBody :=
  { customerId := "78d29773-8aa6-4b33-aa53-2ffca3adbe7e"
    externalTransactionId := uniqueTxId
    transactionDate := nowIso
    transactionType := "crypto"
    transactionSubType := "wallet transfer"
    transactionInfo :=
      { direction := "IN"
        currencyCode := "ETH"
        blockchain := "eip155"
        chainId := "1"
        hash := "0x89c195a8b61fb201ce1fb31c6c5c28d3915d49bbb83b86d634f5646e02d6b323"
        amount := ⟨5, 1⟩
        fees :=
          { networkFeeAmount := ⟨2, 3⟩
            platformFeeAmount := ⟨1, 3⟩
            networkFeeCurrencyCode := "ETH"
            platformFeeCurrencyCode := "ETH" } }
    originator :=
      { partyType := "individual"
        name := "Bob Smith"
        transactionMethod :=
          { methodType := "crypto"
            accountId := "0x7B5f55aE4f1Cb8a6bE0a9cD1FeE8F8C4cCfF9a3D" }
        institution := none }
    beneficiary :=
      { partyType := "individual"
        name := "Alice Carter"
        transactionMethod :=
          { methodType := "crypto"
            accountId := "0x4E6f1cB8C7A2E3A2DeAb69c4e0A9F798D6FcF8B8" }
        institution := some { name := "Binance", code := "BINANCE123" } } }

/-- Ethereum address string format: `0x` + 40 hex digits.  `ethers` also
enforces the EIP-55 checksum on mixed-case inputs; the keccak checksum is not
modelled, so this check is slightly more permissive than `ethers.getAddress`
(it accepts every string the claim calls well-formed and rejects every
invalid-format string). -/
def isHexDigitChar (c : Char) : Bool :=
  c.isDigit || ('a' ≤ c && c ≤ 'f') || ('A' ≤ c && c ≤ 'F')

def isValidAddressString (s : String) : Bool :=
  s.data.length == 42 && s.data.take 2 == ['0', 'x'] && (s.data.drop 2).all isHexDigitChar

def hexDigitVal (c : Char) : Nat :=
  if c.isDigit then c.toNat - '0'.toNat
  else if 'a' ≤ c && c ≤ 'f' then c.toNat - 'a'.toNat + 10
  else c.toNat - 'A'.toNat + 10

/-- Numeric value of a valid address string (what the ABI encoder encodes). -/
def parseAddress (s : String) : Option Nat :=
  if isValidAddressString s then
    some ((s.data.drop 2).foldl (fun acc c => acc * 16 + hexDigitVal c) 0)
  else none

/-- Function `executeTokenTransfer(sender, recipient, amount)` up to the network call.
In source order: the two validation throws, then the request body is built,
then the arguments of `abiCoder.encode` are evaluated (`toWei` =
`ethers.parseUnits`, which throws when the decimal has more than 18
fractional digits) and the encoder itself throws on an invalid-format
recipient address.  An `ok` result carries exactly what `executeKernels`
would be given: the request data and the encoded function parameters. -/
def executeTokenTransferPrep (sender recipient : String) (amount : JsAmount)
    (now : Nat) (rand : String) (nowIso : String) :
    Except String (KernelRequestData × List Nat) :=
  if sender == "" || recipient == "" then
    .error "Sender and recipient addresses are required"
  else if amount.m ≤ 0 then
    .error "Amount must be greater than 0"
  else
    let uniqueTransactionId := genTxId now rand
    let kernelRequestData : KernelRequestData :=
      { senderAddress := sender
        body := buildAttestationBody uniqueTransactionId nowIso }
    if 18 < amount.d then
      .error "fractional component exceeds decimals"
    else
      match parseAddress recipient with
      | none => .error "invalid address"
      | some rAddr =>
        .ok (kernelRequestData, abiEncodeAddressUint256 rAddr (toWei amount))

/-- The unique-transaction-id logic of `executeKrnl` (`1657/index.ts`): the
guard `if (!transactionData || !transactionData.externalTransactionId) throw`
runs first; only then is
`transactionData.externalTransactionId || "tx-" + ... + random` evaluated.
`none`/`some ""` model a missing/empty (falsy) `externalTransactionId`. -/
def jsFalsyStr : Option String → Bool
  | none => true
  | some s => s == ""

def executeKrnlUniqueId (suppliedId : Option String) (now : Nat) (rand : String) :
    Except String String :=
  if jsFalsyStr suppliedId then
    .error "Transaction data with externalTransactionId is required"
  else
    .ok (if jsFalsyStr suppliedId then genTxId now rand else suppliedId.getD "")

/-! ## The forge test script (`TestTokenTransfer`) -/

/-- Function `simulateTokenTransferVerification` from the test script: only approved
passes, and — beyond the contract's rule — `riskLevel == "High"` or
`riskScore > 90` also deny. -/
def simulateTokenTransferVerification (payload : WebhookPayload) : Bool :=
  if !(payload.status == "approved") then false
  else if payload.riskLevel == "High" then false
  else if payload.riskScore > 90 then false
  else true

/-- A kernel-response array with a single kernel-1657 entry carrying the
given payload, as built by the script's `generateTestPayload`. -/
def singleKernel1657 (payload : WebhookPayload) : KrnlPayload :=
  ⟨true, [], [⟨1657, ⟨"transaction.updated", payload⟩, ""⟩]⟩

/-! ## The Express risk proxy (`Kernel/index.ts`)

JSON values as delivered by the upstream API; objects are ordered field
lists (JS objects cannot hold duplicate keys, so upstream objects are taken
with distinct keys where it matters). -/

inductive Json where
  | null : Json
  | str : String → Json
  | num : Int → Json
  | bool : Bool → Json
  | arr : List Json → Json
  | obj : List (String × Json) → Json

/-- The fields of a `Json.obj`, `[]` for non-objects. -/
def objFields : Json → List (String × Json)
  | .obj fs => fs
  | _ => []

/-- First value stored under key `k` (a JS property read; `none` models
`undefined`). -/
def getField (fs : List (String × Json)) (k : String) : Option Json :=
  (fs.find? (fun p => p.1 == k)).map (fun p => p.2)

mutual

/-- Function `processValue` from the two `/api/risk/v2/entities` handlers: replace
every `null` (at any depth) by the string `"null"`, recursing through arrays
and objects. -/
def processValue : Json → Json
  | .null => .str "null"
  | .str s => .str s
  | .num n => .num n
  | .bool b => .bool b
  | .arr xs => .arr (processValueList xs)
  | .obj fs => .obj (processValueFields fs)

def processValueList : List Json → List Json
  | [] => []
  | x :: xs => processValue x :: processValueList xs

def processValueFields : List (String × Json) → List (String × Json)
  | [] => []
  | (k, v) :: fs => (k, processValue v) :: processValueFields fs

end

/-- Function `renameTopAddressKey`: on an object with an `address` key,
`const { address, ...rest } = data; return { walletAddress: address, ...rest }`.
JS object-literal semantics: `walletAddress` is inserted first with the
destructured `address` value, then `rest` (every field but `address`, in
order) is spread over it — so a `walletAddress` key already present in
`rest` keeps the first-insertion position but OVERWRITES the value, and the
spread entry is merged away.  Anything else is returned unchanged. -/
def renameTopAddressKey : Json → Json
  | .obj fs =>
    if fs.any (fun p => p.1 == "address") then
      .obj (("walletAddress",
             (getField (fs.filter (fun p => p.1 != "address")) "walletAddress").getD
               ((getField fs "address").getD .null))
            :: (fs.filter (fun p => p.1 != "address")).filter
                 (fun p => p.1 != "walletAddress"))
    else .obj fs
  | v => v

/-- The four keys `filterRiskFields` retains, in return-object order. -/
def riskFieldKeys : List String := ["walletAddress", "risk", "riskReason", "status"]

/-- Function `filterRiskFields`: rename, then destructure
`{walletAddress, risk, riskReason, status}`.  A destructured `undefined`
(absent key) is dropped by `res.json`'s serialisation, so the result object
holds exactly the retained keys that were present. -/
def filterRiskFields (data : Json) : Json :=
  let fs := objFields (renameTopAddressKey data)
  .obj (riskFieldKeys.filterMap (fun k => (getField fs k).map (fun v => (k, v))))

/-- Response body of `GET /api/risk/v2/entities/:address` and
`POST /api/risk/v2/entities` for upstream body `data`:
`filterRiskFields(processValue(data))`. -/
def entitiesEndpointResponse (data : Json) : Json :=
  filterRiskFields (processValue data)

/-- One per-address result of the bulk fan-out: the upstream assessment, or
the error message of a failed fetch. -/
structure BatchResult where
  address : String
  errorMsg : Option String
  assessment : Json

/-- One entry of `processBatchResults` (bulk endpoint): error entries become
`{walletAddress, error}`; successful entries are `filterRiskFields` of the
raw assessment — note: no `processValue` on this path. -/
def processBatchResult (r : BatchResult) : Json :=
  match r.errorMsg with
  | some e => .obj [("walletAddress", .str r.address), ("error", .str e)]
  | none => filterRiskFields r.assessment

/-- Endpoint `POST /api/wallet/analyze/bulk` result list. -/
def processBatchResults (rs : List BatchResult) : List Json :=
  rs.map processBatchResult

/-! ## Shared concrete data for witnesses and counterexamples -/

/-- A decision payload shaped like the test script's `generateTestPayload`. -/
def samplePayload (status riskLevel : String) (riskScore : Nat) (reason : String) :
    WebhookPayload :=
  { createdAt := "2024-01-15T10:30:00Z"
    customerId := "78d29773-8aa6-4b33-aa53-2ffca3adbe7e"
    externalTransactionId := "tx-1700000000000-k3j9f0a1"
    id := "review-456789"
    reason := reason
    riskLevel := riskLevel
    riskScore := riskScore
    status := status
    transactionDate := "2024-01-15T10:30:00Z"
    transactionId := "compilot-tx-789"
    transactionType := "crypto"
    updatedAt := "2024-01-15T10:35:00Z"
    workspaceId := "workspace-123" }

def sampleResponse (status riskLevel : String) (riskScore : Nat) (reason : String) :
    WebhookResponse :=
  ⟨"transaction.updated", samplePayload status riskLevel riskScore reason⟩

/-- Kernel-1657 entry carrying an approved low-risk decision. -/
def approvedEntry : KernelResponse :=
  ⟨1657, sampleResponse "approved" "Low" 15 "Transaction approved after risk assessment", ""⟩

/-- Kernel-1657 entry carrying a rejected high-risk decision. -/
def rejectedEntry : KernelResponse :=
  ⟨1657, sampleResponse "rejected" "High" 85 "High risk indicators detected - transaction blocked", ""⟩

/-- A deployment-like initial state: account 1 holds 1000 token units. -/
def initialState : ContractState :=
  { balances := fun a => if a = 1 then 1000 else 0
    allowances := fun _ _ => 0
    transferAssessments := fun _ => emptyWebhookResponse
    events := [] }

/-- Success test on `Except` (used to state "the call does not revert"). -/
def exceptIsOk : Except String α → Bool
  | .ok _ => true
  | .error _ => false

/-! ## C9 — legacy entry points -/

/-- C9: for every state, caller, recipient and amount, the legacy
`transfer(to, amount)` and `transferFrom(from, to, amount)` entry points
revert unconditionally with their guidance messages and leave every piece of
contract state (in particular all balances) untouched. -/
theorem C9_legacy_transfer_always_reverts (s : ContractState) (fromAddr toAddr amount : Nat) :
    callTransfer s toAddr amount = (s, .error "Use transfer with KRNL payload") ∧
    callTransferFrom s fromAddr toAddr amount =
      (s, .error "Use transferFrom with KRNL payload") :=
  ⟨rfl, rfl⟩

/-! ## C4 — ABI round trip of the Builder's parameter blob -/

theorem take_length_append (l1 l2 : List Nat) : (l1 ++ l2).take l1.length = l1 := by
  induction l1 with
  | nil => rfl
  | cons x xs ih => simp [ih]

theorem drop_length_append (l1 l2 : List Nat) : (l1 ++ l2).drop l1.length = l2 := by
  induction l1 with
  | nil => rfl
  | cons x xs ih => simp [ih]

theorem abiDecode_abiEncode (a v : Nat) (ha : a < 2 ^ 160) (hv : v < 2 ^ 256) :
    abiDecodeAddressUint256 (abiEncodeAddressUint256 a v) = (a, v) := by
  have hlen : (natToBytesBE 32 a).length = 32 := natToBytesBE_length 32 a
  have hpow : (256 : Nat) ^ 32 = 2 ^ 256 := by norm_num
  have htake : (natToBytesBE 32 a ++ natToBytesBE 32 v).take 32 = natToBytesBE 32 a := by
    have h := take_length_append (natToBytesBE 32 a) (natToBytesBE 32 v)
    rwa [hlen] at h
  have hdrop : (natToBytesBE 32 a ++ natToBytesBE 32 v).drop 32 = natToBytesBE 32 v := by
    have h := drop_length_append (natToBytesBE 32 a) (natToBytesBE 32 v)
    rwa [hlen] at h
  have ha2 : a < 256 ^ 32 := by
    rw [hpow]; exact lt_of_lt_of_le ha (by norm_num)
  have hv2 : v < 256 ^ 32 := by rw [hpow]; exact hv
  rw [abiDecodeAddressUint256, abiEncodeAddressUint256, htake, hdrop,
    bytesToNatBE_natToBytesBE 32 a ha2, bytesToNatBE_natToBytesBE 32 v hv2]

/-- C4: for every valid input (non-empty sender, well-formed recipient
address with numeric value `rAddr`, amount > 0 with at most 18 decimals and
a wei value in `uint256` range), `executeTokenTransfer` builds the parameter
blob `abi.encode(["address","uint256"], [recipient, toWei(amount)])`, and
ABI-decoding that blob with the same type list returns exactly the pair
`(recipient, toWei(amount))`, where `toWei(amount)` is the amount scaled by
`10^18` (`toWei(amount) * 10^d = m * 10^18` for `amount = m / 10^d`). -/
theorem C4_builder_params_roundtrip (sender recipient : String) (amount : JsAmount)
    (now : Nat) (rand : String) (nowIso : String) (rAddr : Nat)
    (hsender : sender ≠ "")
    (haddr : parseAddress recipient = some rAddr)
    (hm : 0 < amount.m) (hd : amount.d ≤ 18)
    (ha : rAddr < 2 ^ 160) (hv : toWei amount < 2 ^ 256) :
    executeTokenTransferPrep sender recipient amount now rand nowIso =
      .ok (⟨sender, buildAttestationBody (genTxId now rand) nowIso⟩,
           abiEncodeAddressUint256 rAddr (toWei amount)) ∧
    abiDecodeAddressUint256 (abiEncodeAddressUint256 rAddr (toWei amount)) =
      (rAddr, toWei amount) ∧
    (toWei amount : Int) * 10 ^ amount.d = amount.m * 10 ^ 18 := by
  have hrecne : recipient ≠ "" := by
    intro he
    have hval : isValidAddressString "" = false := rfl
    rw [he, parseAddress, hval] at haddr
    simp at haddr
  refine ⟨?_, abiDecode_abiEncode rAddr (toWei amount) ha hv,
    toWei_scale amount hd (le_of_lt hm)⟩
  have hcond1 : (sender == "" || recipient == "") = false := by
    simp [hsender, hrecne]
  have h2 : ¬(amount.m ≤ 0) := by omega
  have h3 : ¬(18 < amount.d) := by omega
  simp only [executeTokenTransferPrep, hcond1, Bool.false_eq_true, if_false,
    if_neg h2, if_neg h3, haddr]

theorem C4_builder_params_roundtrip_witness :
    executeTokenTransferPrep "0x7B5f55aE4f1Cb8a6bE0a9cD1FeE8F8C4cCfF9a3D"
        "0x4E6f1cB8C7A2E3A2DeAb69c4e0A9F798D6FcF8B8" ⟨15, 1⟩
        1700000000000 "k3j9f0a1" "2024-01-15T10:30:00.000Z" =
      .ok (⟨"0x7B5f55aE4f1Cb8a6bE0a9cD1FeE8F8C4cCfF9a3D",
            buildAttestationBody (genTxId 1700000000000 "k3j9f0a1") "2024-01-15T10:30:00.000Z"⟩,
           abiEncodeAddressUint256 0x4E6f1cB8C7A2E3A2DeAb69c4e0A9F798D6FcF8B8 (toWei ⟨15, 1⟩)) ∧
    abiDecodeAddressUint256
        (abiEncodeAddressUint256 0x4E6f1cB8C7A2E3A2DeAb69c4e0A9F798D6FcF8B8 (toWei ⟨15, 1⟩)) =
      (0x4E6f1cB8C7A2E3A2DeAb69c4e0A9F798D6FcF8B8, toWei ⟨15, 1⟩) ∧
    ((toWei ⟨15, 1⟩ : Nat) : Int) * 10 ^ (1 : Nat) = (15 : Int) * 10 ^ 18 :=
  C4_builder_params_roundtrip "0x7B5f55aE4f1Cb8a6bE0a9cD1FeE8F8C4cCfF9a3D"
    "0x4E6f1cB8C7A2E3A2DeAb69c4e0A9F798D6FcF8B8" ⟨15, 1⟩
    1700000000000 "k3j9f0a1" "2024-01-15T10:30:00.000Z"
    0x4E6f1cB8C7A2E3A2DeAb69c4e0A9F798D6FcF8B8
    (by decide) (by decide) (by decide) (by decide) (by decide) (by decide)

/-! ## C7 — Builder fails fast on invalid input -/

/-- C7: when the sender is missing, the recipient is missing or not a
well-formed address, or the amount is ≤ 0 (including 0), `executeTokenTransfer`
throws locally: the preparation never reaches an `ok` result, so no kernel
request is issued (`executeKernels` is only reached with the `ok` output). -/
theorem C7_builder_fails_fast (sender recipient : String) (amount : JsAmount)
    (now : Nat) (rand : String) (nowIso : String)
    (h : sender = "" ∨ recipient = "" ∨ isValidAddressString recipient = false ∨
         amount.m ≤ 0) :
    exceptIsOk (executeTokenTransferPrep sender recipient amount now rand nowIso) = false := by
  rw [executeTokenTransferPrep]
  rcases h with h | h | h | h
  · rw [if_pos (by simp [h])]
    rfl
  · rw [if_pos (by simp [h])]
    rfl
  · by_cases h1 : (sender == "" || recipient == "") = true
    · rw [if_pos h1]; rfl
    · rw [if_neg h1]
      by_cases h2 : amount.m ≤ 0
      · rw [if_pos h2]; rfl
      · rw [if_neg h2]
        by_cases h3 : 18 < amount.d
        · rw [if_pos h3]; rfl
        · rw [if_neg h3, parseAddress, h]
          rfl
  · by_cases h1 : (sender == "" || recipient == "") = true
    · rw [if_pos h1]; rfl
    · rw [if_neg h1, if_pos h]; rfl

theorem C7_builder_fails_fast_witness :
    exceptIsOk (executeTokenTransferPrep "0x7B5f55aE4f1Cb8a6bE0a9cD1FeE8F8C4cCfF9a3D"
      "not-an-address" ⟨15, 1⟩ 1700000000000 "k3j9f0a1" "2024-01-15T10:30:00.000Z") = false :=
  C7_builder_fails_fast "0x7B5f55aE4f1Cb8a6bE0a9cD1FeE8F8C4cCfF9a3D" "not-an-address"
    ⟨15, 1⟩ 1700000000000 "k3j9f0a1" "2024-01-15T10:30:00.000Z"
    (Or.inr (Or.inr (Or.inl (by decide))))

/-! ## C10 — the attestation body carries a constant amount -/

/-- C10: for every valid builder input, the kernel request body submitted by
`executeTokenTransfer` carries the hard-coded `transactionInfo.amount = 0.5`
and the fixed originator/beneficiary identities, independent of the transfer
amount; only the ABI-encoded function parameters carry the real
`(recipient, toWei(amount))` pair. -/
theorem C10_attestation_amount_constant (sender recipient : String) (amount : JsAmount)
    (now : Nat) (rand : String) (nowIso : String) (rAddr : Nat)
    (hsender : sender ≠ "")
    (haddr : parseAddress recipient = some rAddr)
    (hm : 0 < amount.m) (hd : amount.d ≤ 18) :
    executeTokenTransferPrep sender recipient amount now rand nowIso =
      .ok (⟨sender, buildAttestationBody (genTxId now rand) nowIso⟩,
           abiEncodeAddressUint256 rAddr (toWei amount)) ∧
    (buildAttestationBody (genTxId now rand) nowIso).transactionInfo.amount = ⟨5, 1⟩ ∧
    (buildAttestationBody (genTxId now rand) nowIso).originator.name = "Bob Smith" ∧
    (buildAttestationBody (genTxId now rand) nowIso).originator.transactionMethod.accountId =
      "0x7B5f55aE4f1Cb8a6bE0a9cD1FeE8F8C4cCfF9a3D" ∧
    (buildAttestationBody (genTxId now rand) nowIso).beneficiary.name = "Alice Carter" ∧
    (buildAttestationBody (genTxId now rand) nowIso).beneficiary.transactionMethod.accountId =
      "0x4E6f1cB8C7A2E3A2DeAb69c4e0A9F798D6FcF8B8" := by
  have hrecne : recipient ≠ "" := by
    intro he
    have hval : isValidAddressString "" = false := rfl
    rw [he, parseAddress, hval] at haddr
    simp at haddr
  refine ⟨?_, rfl, rfl, rfl, rfl, rfl⟩
  have hcond1 : (sender == "" || recipient == "") = false := by
    simp [hsender, hrecne]
  have h2 : ¬(amount.m ≤ 0) := by omega
  have h3 : ¬(18 < amount.d) := by omega
  simp only [executeTokenTransferPrep, hcond1, Bool.false_eq_true, if_false,
    if_neg h2, if_neg h3, haddr]

theorem C10_attestation_amount_constant_witness :
    executeTokenTransferPrep "0x7B5f55aE4f1Cb8a6bE0a9cD1FeE8F8C4cCfF9a3D"
        "0x4E6f1cB8C7A2E3A2DeAb69c4e0A9F798D6FcF8B8" ⟨100, 0⟩
        1700000000000 "k3j9f0a1" "2024-01-15T10:30:00.000Z" =
      .ok (⟨"0x7B5f55aE4f1Cb8a6bE0a9cD1FeE8F8C4cCfF9a3D",
            buildAttestationBody (genTxId 1700000000000 "k3j9f0a1") "2024-01-15T10:30:00.000Z"⟩,
           abiEncodeAddressUint256 0x4E6f1cB8C7A2E3A2DeAb69c4e0A9F798D6FcF8B8 (toWei ⟨100, 0⟩)) ∧
    (buildAttestationBody (genTxId 1700000000000 "k3j9f0a1") "2024-01-15T10:30:00.000Z").transactionInfo.amount = ⟨5, 1⟩ ∧
    (buildAttestationBody (genTxId 1700000000000 "k3j9f0a1") "2024-01-15T10:30:00.000Z").originator.name = "Bob Smith" ∧
    (buildAttestationBody (genTxId 1700000000000 "k3j9f0a1") "2024-01-15T10:30:00.000Z").originator.transactionMethod.accountId =
      "0x7B5f55aE4f1Cb8a6bE0a9cD1FeE8F8C4cCfF9a3D" ∧
    (buildAttestationBody (genTxId 1700000000000 "k3j9f0a1") "2024-01-15T10:30:00.000Z").beneficiary.name = "Alice Carter" ∧
    (buildAttestationBody (genTxId 1700000000000 "k3j9f0a1") "2024-01-15T10:30:00.000Z").beneficiary.transactionMethod.accountId =
      "0x4E6f1cB8C7A2E3A2DeAb69c4e0A9F798D6FcF8B8" :=
  C10_attestation_amount_constant "0x7B5f55aE4f1Cb8a6bE0a9cD1FeE8F8C4cCfF9a3D"
    "0x4E6f1cB8C7A2E3A2DeAb69c4e0A9F798D6FcF8B8" ⟨100, 0⟩
    1700000000000 "k3j9f0a1" "2024-01-15T10:30:00.000Z"
    0x4E6f1cB8C7A2E3A2DeAb69c4e0A9F798D6FcF8B8
    (by decide) (by decide) (by decide) (by decide)

/-! ## C8 — transaction id generation

The claim as stated fails on `executeKrnl`: its validation guard throws on a
missing `externalTransactionId` before the `||` fallback can run, so the
generation path there is dead code and is never taken. -/

/-- C8 counterexample: calling `executeKrnl` with `externalTransactionId`
absent does not generate an id of the claimed shape — it throws the
validation error, refuting "in executeKrnl this generation path is taken
whenever transactionData.externalTransactionId is absent". -/
theorem C8_counterexample_executeKrnl_throws :
    executeKrnlUniqueId none 1700000000000 "k3j9f0a1" =
      .error "Transaction data with externalTransactionId is required" ∧
    executeKrnlUniqueId none 1700000000000 "k3j9f0a1" ≠
      .ok (genTxId 1700000000000 "k3j9f0a1") :=
  ⟨rfl, fun h => Except.noConfusion h⟩

/-- C8 (amended): `executeTokenTransfer` always generates the id
`"tx-" + Date.now() + "-" + suffix`, where `suffix` is the first 8 base-36
fractional characters of `Math.random()` (exactly 8 whenever the random
value has at least 8 such digits); `executeKrnl` never takes a generation
path: a missing (falsy) `externalTransactionId` makes it throw before the
fallback, and a supplied non-empty id is used unchanged. -/
theorem C8_transaction_id_generation (sender recipient : String) (amount : JsAmount)
    (now : Nat) (rand : String) (nowIso : String) (rAddr : Nat)
    (suppliedId : String)
    (hsender : sender ≠ "")
    (haddr : parseAddress recipient = some rAddr)
    (hm : 0 < amount.m) (hd : amount.d ≤ 18)
    (hsupplied : suppliedId ≠ "") :
    (∀ req params,
      executeTokenTransferPrep sender recipient amount now rand nowIso = .ok (req, params) →
      req.body.externalTransactionId = "tx-" ++ toString now ++ "-" ++ randomSuffix rand) ∧
    (8 ≤ rand.data.length → (randomSuffix rand).data.length = 8) ∧
    executeKrnlUniqueId (some suppliedId) now rand = .ok suppliedId ∧
    executeKrnlUniqueId none now rand =
      .error "Transaction data with externalTransactionId is required" := by
  have hrecne : recipient ≠ "" := by
    intro he
    have hval : isValidAddressString "" = false := rfl
    rw [he, parseAddress, hval] at haddr
    simp at haddr
  refine ⟨?_, ?_, ?_, rfl⟩
  · intro req params hok
    have hcond1 : (sender == "" || recipient == "") = false := by
      simp [hsender, hrecne]
    have h2 : ¬(amount.m ≤ 0) := by omega
    have h3 : ¬(18 < amount.d) := by omega
    simp only [executeTokenTransferPrep, hcond1, Bool.false_eq_true, if_false,
      if_neg h2, if_neg h3, haddr, Except.ok.injEq, Prod.mk.injEq] at hok
    rw [← hok.1]
    rfl
  · intro hlen
    have hmk : (String.mk (rand.data.take 8)).data.length = (rand.data.take 8).length := rfl
    rw [randomSuffix, hmk, List.length_take]
    omega
  · have hfalsy : jsFalsyStr (some suppliedId) = false := by
      simp [jsFalsyStr, hsupplied]
    simp [executeKrnlUniqueId, hfalsy]

theorem C8_transaction_id_generation_witness :
    ((∀ req params,
      executeTokenTransferPrep "0x7B5f55aE4f1Cb8a6bE0a9cD1FeE8F8C4cCfF9a3D"
          "0x4E6f1cB8C7A2E3A2DeAb69c4e0A9F798D6FcF8B8" ⟨15, 1⟩
          1700000000000 "k3j9f0a17" "2024-01-15T10:30:00.000Z" = .ok (req, params) →
      req.body.externalTransactionId =
        "tx-" ++ toString 1700000000000 ++ "-" ++ randomSuffix "k3j9f0a17") ∧
    (8 ≤ "k3j9f0a17".data.length → (randomSuffix "k3j9f0a17").data.length = 8) ∧
    executeKrnlUniqueId (some "user-tx-42") 1700000000000 "k3j9f0a17" = .ok "user-tx-42" ∧
    executeKrnlUniqueId none 1700000000000 "k3j9f0a17" =
      .error "Transaction data with externalTransactionId is required") ∧
    (randomSuffix "k3j9f0a17").data.length = 8 := by
  have h := C8_transaction_id_generation "0x7B5f55aE4f1Cb8a6bE0a9cD1FeE8F8C4cCfF9a3D"
    "0x4E6f1cB8C7A2E3A2DeAb69c4e0A9F798D6FcF8B8" ⟨15, 1⟩
    1700000000000 "k3j9f0a17" "2024-01-15T10:30:00.000Z"
    0x4E6f1cB8C7A2E3A2DeAb69c4e0A9F798D6FcF8B8 "user-tx-42"
    (by decide) (by decide) (by decide) (by decide) (by decide)
  exact ⟨h, h.2.1 (by decide)⟩

/-! ## C5 — the test script's simulation vs the contract gate

The script claims to replicate `checkTransferAllowed`, but it adds two
further gates (`riskLevel == "High"` and `riskScore > 90`), so the two
decisions differ on approved high-risk payloads. -/

/-- C5 counterexample: for an approved payload with `riskLevel = "High"`,
`simulateTokenTransferVerification` denies while `checkTransferAllowed`
(fed a single kernel-1657 response with that payload) allows — the two
decision procedures are not equal. -/
theorem C5_counterexample_approved_high_risk :
    simulateTokenTransferVerification
      (samplePayload "approved" "High" 15 "Transaction approved after risk assessment") = false ∧
    (checkTransferAllowed initialState
      (singleKernel1657
        (samplePayload "approved" "High" 15 "Transaction approved after risk assessment"))
      1 2 100 1000).2 = true := by
  constructor
  · rfl
  · rfl

/-- C5 (amended): the script's decision refines the contract's: whenever the
script allows, `checkTransferAllowed` allows; and on payloads outside the
script's two extra gates (`riskLevel ≠ "High"` and `riskScore ≤ 90`) the two
decisions coincide.  They are not equal in general (the script additionally
denies approved payloads with `riskLevel = "High"` or `riskScore > 90`). -/
theorem C5_script_refines_contract_gate (s : ContractState) (f t a ts : Nat)
    (payload : WebhookPayload) :
    (simulateTokenTransferVerification payload = true →
      (checkTransferAllowed s (singleKernel1657 payload) f t a ts).2 = true) ∧
    (payload.riskLevel ≠ "High" → payload.riskScore ≤ 90 →
      simulateTokenTransferVerification payload =
        (checkTransferAllowed s (singleKernel1657 payload) f t a ts).2) := by
  have hsnd : (checkTransferAllowed s (singleKernel1657 payload) f t a ts).2 =
      (payload.status == "approved") := rfl
  rw [hsnd]
  constructor
  · intro hsim
    by_cases hst : (payload.status == "approved") = true
    · exact hst
    · rw [simulateTokenTransferVerification, if_pos (by simp [hst])] at hsim
      exact absurd hsim (by simp)
  · intro hrl hrs
    rw [simulateTokenTransferVerification]
    by_cases hst : (payload.status == "approved") = true
    · rw [if_neg (by simp [hst]), if_neg (by simp [hrl]), if_neg (by omega), hst]
    · rw [if_pos (by simp [hst])]
      simp [hst]

theorem C5_script_refines_contract_gate_witness :
    ((simulateTokenTransferVerification
        (samplePayload "approved" "Low" 15 "Transaction approved after risk assessment") = true →
      (checkTransferAllowed initialState
        (singleKernel1657
          (samplePayload "approved" "Low" 15 "Transaction approved after risk assessment"))
        1 2 100 1000).2 = true) ∧
    ((samplePayload "approved" "Low" 15 "Transaction approved after risk assessment").riskLevel ≠ "High" →
     (samplePayload "approved" "Low" 15 "Transaction approved after risk assessment").riskScore ≤ 90 →
      simulateTokenTransferVerification
        (samplePayload "approved" "Low" 15 "Transaction approved after risk assessment") =
        (checkTransferAllowed initialState
          (singleKernel1657
            (samplePayload "approved" "Low" 15 "Transaction approved after risk assessment"))
          1 2 100 1000).2)) ∧
    simulateTokenTransferVerification
      (samplePayload "approved" "Low" 15 "Transaction approved after risk assessment") =
      (checkTransferAllowed initialState
        (singleKernel1657
          (samplePayload "approved" "Low" 15 "Transaction approved after risk assessment"))
        1 2 100 1000).2 := by
  have h := C5_script_refines_contract_gate initialState 1 2 100 1000
    (samplePayload "approved" "Low" 15 "Transaction approved after risk assessment")
  exact ⟨h, h.2 (by decide) (by decide)⟩

/-! ## C1 — the gate decides on the first kernel-1657 entry

The claim's existential reading ("contains an entry with kernelId 1657 whose
status is approved") is not what the loop implements: the loop returns at
the FIRST entry with kernelId 1657, so a later approved entry is ignored. -/

theorem checkTransferAllowed_eq_of_find (s : ContractState) (p : KrnlPayload)
    (f t a ts : Nat) (r : KernelResponse)
    (hfind : find1657 p.kernelResponses = some r) :
    checkTransferAllowed s p f t a ts =
      ({ s with
          transferAssessments := fun k =>
            if k = ⟨f, t, a, ts⟩ then r.result else s.transferAssessments k,
          events := s.events ++
            [⟨f, t, a, r.result.payload.status, r.result.payload.status == "approved", ts⟩] },
       (r.result.payload.status == "approved")) := by
  rw [checkTransferAllowed, hfind]

theorem checkTransferAllowed_eq_of_none (s : ContractState) (p : KrnlPayload)
    (f t a ts : Nat) (hfind : find1657 p.kernelResponses = none) :
    checkTransferAllowed s p f t a ts = (s, false) := by
  rw [checkTransferAllowed, hfind]

/-- C1 (amended): `checkTransferAllowed` returns `true` iff the FIRST entry
of the decoded `kernelResponses` with `kernelId = 1657` exists and its
decoded status is exactly `"approved"` (`false` when no 1657 entry exists);
when it returns `false`, `transferWithKRNL` (with the authorization modifier
passing and a non-zero recipient) reverts with
"Transfer denied due to risk assessment"; and when it returns `true` for a
non-zero sender with sufficient balance, the transfer is performed. -/
theorem C1_gate_first_1657_entry (s : ContractState) (p : KrnlPayload)
    (sender toAddr amount ts : Nat) :
    ((checkTransferAllowed s p sender toAddr amount ts).2 =
      ((find1657 p.kernelResponses).map
        (fun r => r.result.payload.status == "approved")).getD false) ∧
    (onlyAuthorized p (abiEncodeAddressUint256 toAddr amount) = true → toAddr ≠ 0 →
      (checkTransferAllowed s p sender toAddr amount ts).2 = false →
      callTransferWithKRNL s sender toAddr amount p ts =
        (s, .error "Transfer denied due to risk assessment")) ∧
    (onlyAuthorized p (abiEncodeAddressUint256 toAddr amount) = true → toAddr ≠ 0 →
      sender ≠ 0 → ¬((checkTransferAllowed s p sender toAddr amount ts).1.balances sender < amount) →
      (checkTransferAllowed s p sender toAddr amount ts).2 = true →
      exceptIsOk (callTransferWithKRNL s sender toAddr amount p ts).2 = true) := by
  refine ⟨?_, ?_, ?_⟩
  · cases hfind : find1657 p.kernelResponses with
    | none => rw [checkTransferAllowed_eq_of_none s p sender toAddr amount ts hfind]; rfl
    | some r => rw [checkTransferAllowed_eq_of_find s p sender toAddr amount ts r hfind]; rfl
  · intro hauth hto hfalse
    rw [callTransferWithKRNL, transferWithKRNL,
      if_neg (by simp [hauth]), if_neg (by simp [hto])]
    simp only [hfalse, Bool.not_false, if_true]
    rfl
  · intro hauth hto hs0 hbal htrue
    rw [callTransferWithKRNL, transferWithKRNL,
      if_neg (by simp [hauth]), if_neg (by simp [hto])]
    simp only [htrue, Bool.not_true, Bool.false_eq_true, if_false]
    rw [ercTransfer, if_neg (by simp [hs0]), if_neg (by simp [hto]), if_neg hbal]
    rfl

/-- Payload whose kernel-responses array holds two kernel-1657 entries: a
rejected decision first, an approved one second; signed over
`abi.encode(2, 100)`. -/
def mixedPayloadC1 : KrnlPayload :=
  ⟨true, abiEncodeAddressUint256 2 100, [rejectedEntry, approvedEntry]⟩

/-- C1 counterexample: the array contains an entry with `kernelId = 1657`
whose status is exactly `"approved"`, yet `checkTransferAllowed` answers
`false` and the (authorized, non-zero-recipient, funded) `transferWithKRNL`
call reverts — refuting the claim's "if and only if". -/
theorem C1_counterexample_two_1657_entries :
    (approvedEntry ∈ mixedPayloadC1.kernelResponses ∧
     approvedEntry.kernelId = 1657 ∧
     approvedEntry.result.payload.status = "approved") ∧
    (checkTransferAllowed initialState mixedPayloadC1 1 2 100 1000).2 = false ∧
    callTransferWithKRNL initialState 1 2 100 mixedPayloadC1 1000 =
      (initialState, .error "Transfer denied due to risk assessment") := by
  refine ⟨⟨by decide, rfl, rfl⟩, rfl, rfl⟩

theorem C1_gate_first_1657_entry_witness :
    ((checkTransferAllowed initialState mixedPayloadC1 1 2 100 1000).2 =
      ((find1657 mixedPayloadC1.kernelResponses).map
        (fun r => r.result.payload.status == "approved")).getD false) ∧
    callTransferWithKRNL initialState 1 2 100 mixedPayloadC1 1000 =
      (initialState, .error "Transfer denied due to risk assessment") := by
  have h := C1_gate_first_1657_entry initialState mixedPayloadC1 1 2 100 1000
  exact ⟨h.1, h.2.1 (by decide) (by decide) (by rfl)⟩

/-! ## C3 — a non-approved decision reverts the whole call -/

/-- C3: for every `transferWithKRNL`/`transferFromWithKRNL` call whose
decoded kernel-1657 decision (the first 1657 entry, the one the contract
decodes) has a status other than `"approved"`, the call reverts — whatever
the authorization outcome — and the post-call state is the pre-call state:
every account balance is unchanged. -/
theorem C3_denied_decision_reverts_all (s : ContractState) (p : KrnlPayload)
    (msgSender sender toAddr amount ts : Nat) (r : KernelResponse)
    (hfind : find1657 p.kernelResponses = some r)
    (hstatus : r.result.payload.status ≠ "approved") :
    exceptIsOk (callTransferWithKRNL s sender toAddr amount p ts).2 = false ∧
    (callTransferWithKRNL s sender toAddr amount p ts).1 = s ∧
    (∀ a, (callTransferWithKRNL s sender toAddr amount p ts).1.balances a = s.balances a) ∧
    exceptIsOk (callTransferFromWithKRNL s msgSender sender toAddr amount p ts).2 = false ∧
    (callTransferFromWithKRNL s msgSender sender toAddr amount p ts).1 = s ∧
    (∀ a, (callTransferFromWithKRNL s msgSender sender toAddr amount p ts).1.balances a =
      s.balances a) := by
  have hsnd : (checkTransferAllowed s p sender toAddr amount ts).2 = false := by
    rw [checkTransferAllowed_eq_of_find s p sender toAddr amount ts r hfind]
    simp [hstatus]
  have herr1 : ∃ e, transferWithKRNL s sender toAddr amount p ts = .error e := by
    rw [transferWithKRNL]
    split
    · exact ⟨_, rfl⟩
    · split
      · exact ⟨_, rfl⟩
      · simp only [hsnd, Bool.not_false, if_true]
        exact ⟨_, rfl⟩
  have herr2 : ∃ e, transferFromWithKRNL s msgSender sender toAddr amount p ts = .error e := by
    rw [transferFromWithKRNL]
    split
    · exact ⟨_, rfl⟩
    · split
      · exact ⟨_, rfl⟩
      · split
        · exact ⟨_, rfl⟩
        · simp only [hsnd, Bool.not_false, if_true]
          exact ⟨_, rfl⟩
  obtain ⟨e1, he1⟩ := herr1
  obtain ⟨e2, he2⟩ := herr2
  rw [callTransferWithKRNL, callTransferFromWithKRNL, he1, he2]
  exact ⟨rfl, rfl, fun _ => rfl, rfl, rfl, fun _ => rfl⟩

/-- Rejected high-risk decision (status `"rejected"`, riskLevel `"High"`,
riskScore 85) signed over `abi.encode(2, 100)`. -/
def rejectedPayloadC3 : KrnlPayload :=
  ⟨true, abiEncodeAddressUint256 2 100, [rejectedEntry]⟩

theorem C3_denied_decision_reverts_all_witness :
    exceptIsOk (callTransferWithKRNL initialState 1 2 100 rejectedPayloadC3 1000).2 = false ∧
    (callTransferWithKRNL initialState 1 2 100 rejectedPayloadC3 1000).1 = initialState ∧
    exceptIsOk (callTransferFromWithKRNL initialState 3 1 2 100 rejectedPayloadC3 1000).2 =
      false ∧
    (callTransferFromWithKRNL initialState 3 1 2 100 rejectedPayloadC3 1000).1 = initialState :=
  have h := C3_denied_decision_reverts_all initialState rejectedPayloadC3 3 1 2 100 1000
    rejectedEntry (by rfl) (by decide)
  ⟨h.1, h.2.1, h.2.2.2.1, h.2.2.2.2.1⟩

/-! ## C2 — effects of a successful `transferWithKRNL` -/

/-- C2 (amended): on every successful `transferWithKRNL(to, amount, payload)`
call by a sender distinct from the recipient: the first kernel-1657 decision
is `"approved"`, the sender had a sufficient balance, the sender's balance
decreases by `amount` while the recipient's increases by `amount` (for a
self-transfer, excluded here, the balance is unchanged instead), the
`TransferAssessed` event `(sender, to, amount, status, allowed = true,
block timestamp)` is appended, and the decoded `WebhookResponse` is stored
under the key `keccak256(abi.encodePacked(sender, to, amount, timestamp))`,
retrievable via `getTransferAssessment`. -/
theorem C2_success_transfer_effects (s : ContractState) (p : KrnlPayload)
    (sender toAddr amount ts : Nat) (r : KernelResponse)
    (hfind : find1657 p.kernelResponses = some r)
    (hok : exceptIsOk (callTransferWithKRNL s sender toAddr amount p ts).2 = true)
    (hne : sender ≠ toAddr) :
    r.result.payload.status = "approved" ∧
    amount ≤ s.balances sender ∧
    (callTransferWithKRNL s sender toAddr amount p ts).1.balances sender =
      s.balances sender - amount ∧
    (callTransferWithKRNL s sender toAddr amount p ts).1.balances toAddr =
      s.balances toAddr + amount ∧
    (callTransferWithKRNL s sender toAddr amount p ts).1.events =
      s.events ++ [⟨sender, toAddr, amount, r.result.payload.status, true, ts⟩] ∧
    getTransferAssessment (callTransferWithKRNL s sender toAddr amount p ts).1
      ⟨sender, toAddr, amount, ts⟩ = r.result := by
  have hch := checkTransferAllowed_eq_of_find s p sender toAddr amount ts r hfind
  by_cases hauth : (!onlyAuthorized p (abiEncodeAddressUint256 toAddr amount)) = true
  · exfalso
    rw [callTransferWithKRNL, transferWithKRNL, if_pos hauth] at hok
    simp [runCall, exceptIsOk] at hok
  by_cases hto : (toAddr == 0) = true
  · exfalso
    rw [callTransferWithKRNL, transferWithKRNL, if_neg hauth, if_pos hto] at hok
    simp [runCall, exceptIsOk] at hok
  by_cases hst : r.result.payload.status = "approved"
  case neg =>
    exfalso
    have hsnd : (checkTransferAllowed s p sender toAddr amount ts).2 = false := by
      rw [hch]; simp [hst]
    rw [callTransferWithKRNL, transferWithKRNL, if_neg hauth, if_neg hto] at hok
    simp only [hsnd, Bool.not_false, if_true] at hok
    simp [runCall, exceptIsOk] at hok
  have hsnd : (checkTransferAllowed s p sender toAddr amount ts).2 = true := by
    rw [hch]; simp [hst]
  have htw : transferWithKRNL s sender toAddr amount p ts =
      (ercTransfer (checkTransferAllowed s p sender toAddr amount ts).1
        sender toAddr amount).map (fun s2 => (s2, true)) := by
    rw [transferWithKRNL, if_neg hauth, if_neg hto]
    simp only [hsnd, Bool.not_true, Bool.false_eq_true, if_false]
  have hbalfn : (checkTransferAllowed s p sender toAddr amount ts).1.balances = s.balances := by
    rw [hch]
  by_cases hs0 : (sender == 0) = true
  · exfalso
    rw [callTransferWithKRNL, htw, ercTransfer, if_pos hs0] at hok
    simp [runCall, exceptIsOk, Except.map] at hok
  by_cases hbal : (checkTransferAllowed s p sender toAddr amount ts).1.balances sender < amount
  · exfalso
    rw [callTransferWithKRNL, htw, ercTransfer, if_neg hs0, if_neg hto, if_pos hbal] at hok
    simp [runCall, exceptIsOk, Except.map] at hok
  have hle : amount ≤ s.balances sender := by
    rw [hbalfn] at hbal; omega
  have hcall : callTransferWithKRNL s sender toAddr amount p ts =
      ({ (checkTransferAllowed s p sender toAddr amount ts).1 with
          balances := fun a =>
            if a = toAddr then
              (if toAddr = sender then
                (checkTransferAllowed s p sender toAddr amount ts).1.balances sender - amount
               else (checkTransferAllowed s p sender toAddr amount ts).1.balances toAddr) + amount
            else if a = sender then
              (checkTransferAllowed s p sender toAddr amount ts).1.balances sender - amount
            else (checkTransferAllowed s p sender toAddr amount ts).1.balances a },
       .ok true) := by
    rw [callTransferWithKRNL, htw, ercTransfer, if_neg hs0, if_neg hto, if_neg hbal]
    rfl
  have hev : (checkTransferAllowed s p sender toAddr amount ts).1.events =
      s.events ++ [⟨sender, toAddr, amount, r.result.payload.status,
        r.result.payload.status == "approved", ts⟩] := by
    rw [hch]
  have hass : (checkTransferAllowed s p sender toAddr amount ts).1.transferAssessments
      ⟨sender, toAddr, amount, ts⟩ = r.result := by
    rw [hch]
    simp
  refine ⟨hst, hle, ?_, ?_, ?_, ?_⟩
  · rw [hcall]
    simp [hne, hbalfn]
  · rw [hcall]
    simp [Ne.symm hne, hbalfn]
  · rw [hcall]
    simp only []
    rw [hev, hst]
    simp
  · rw [hcall]
    exact hass

/-- Approved decision signed over `abi.encode(1, 100)` (self-transfer). -/
def approvedSelfPayload : KrnlPayload :=
  ⟨true, abiEncodeAddressUint256 1 100, [approvedEntry]⟩

/-- C2 counterexample: a successful self-transfer (`sender = to = 1`,
`amount = 100`): the call succeeds, yet account 1's balance is unchanged at
1000 — not decreased by the amount as the claim states for every successful
call. -/
theorem C2_counterexample_self_transfer :
    (callTransferWithKRNL initialState 1 1 100 approvedSelfPayload 1000).2 = .ok true ∧
    initialState.balances 1 = 1000 ∧
    (callTransferWithKRNL initialState 1 1 100 approvedSelfPayload 1000).1.balances 1 = 1000 ∧
    (1000 : Nat) ≠ 1000 - 100 :=
  ⟨rfl, rfl, rfl, by decide⟩

/-- Approved decision signed over `abi.encode(2, 100)`. -/
def approvedPayloadC2 : KrnlPayload :=
  ⟨true, abiEncodeAddressUint256 2 100, [approvedEntry]⟩

theorem C2_success_transfer_effects_witness :
    approvedEntry.result.payload.status = "approved" ∧
    100 ≤ initialState.balances 1 ∧
    (callTransferWithKRNL initialState 1 2 100 approvedPayloadC2 1000).1.balances 1 =
      initialState.balances 1 - 100 ∧
    (callTransferWithKRNL initialState 1 2 100 approvedPayloadC2 1000).1.balances 2 =
      initialState.balances 2 + 100 ∧
    (callTransferWithKRNL initialState 1 2 100 approvedPayloadC2 1000).1.events =
      initialState.events ++
        [⟨1, 2, 100, approvedEntry.result.payload.status, true, 1000⟩] ∧
    getTransferAssessment (callTransferWithKRNL initialState 1 2 100 approvedPayloadC2 1000).1
      ⟨1, 2, 100, 1000⟩ = approvedEntry.result :=
  C2_success_transfer_effects initialState approvedPayloadC2 1 2 100 1000 approvedEntry
    (by rfl) (by rfl) (by decide)

/-! ## C6 — the risk proxy's response shaping -/

theorem getField_processValueFields (fs : List (String × Json)) (k : String) :
    getField (processValueFields fs) k = (getField fs k).map processValue := by
  induction fs with
  | nil => rfl
  | cons p fs ih =>
    obtain ⟨k1, v⟩ := p
    by_cases h : (k1 == k) = true
    · simp [getField, processValueFields, List.find?_cons_of_pos, h]
    · simp only [getField, processValueFields] at *
      rw [List.find?_cons_of_neg _ (by simpa using h),
        List.find?_cons_of_neg _ (by simpa using h)]
      exact ih

theorem find?_filter_of_imp (l : List (String × Json)) (p q : (String × Json) → Bool)
    (himp : ∀ x, p x = true → q x = true) :
    (l.filter q).find? p = l.find? p := by
  induction l with
  | nil => rfl
  | cons x l ih =>
    by_cases hp : p x = true
    · rw [List.filter_cons_of_pos (himp x hp), List.find?_cons_of_pos _ hp,
        List.find?_cons_of_pos _ hp]
    · by_cases hq : q x = true
      · rw [List.filter_cons_of_pos hq, List.find?_cons_of_neg _ (by simpa using hp),
          List.find?_cons_of_neg _ (by simpa using hp)]
        exact ih
      · rw [List.filter_cons_of_neg (by simpa using hq),
          List.find?_cons_of_neg _ (by simpa using hp)]
        exact ih

theorem getField_pick_not_mem (keys : List String) (fs : List (String × Json)) (k : String)
    (hk : k ∉ keys) :
    getField (keys.filterMap (fun key => (getField fs key).map (fun v => (key, v)))) k =
      none := by
  induction keys with
  | nil => rfl
  | cons key rest ih =>
    have hne : key ≠ k := fun h => hk (h ▸ List.mem_cons_self _ _)
    have hk2 : k ∉ rest := fun h => hk (List.mem_cons_of_mem _ h)
    rw [List.filterMap_cons]
    cases hgf : getField fs key with
    | none => simpa using ih hk2
    | some v =>
      simp only [Option.map_some']
      rw [getField, List.find?_cons_of_neg _ (by simpa using hne)]
      exact ih hk2

theorem getField_pick_mem (keys : List String) (fs : List (String × Json)) (k : String)
    (hk : k ∈ keys) (hnd : keys.Nodup) :
    getField (keys.filterMap (fun key => (getField fs key).map (fun v => (key, v)))) k =
      getField fs k := by
  induction keys with
  | nil => cases hk
  | cons key rest ih =>
    have hnd2 := List.nodup_cons.mp hnd
    rw [List.filterMap_cons]
    rcases List.mem_cons.mp hk with heq | hmem
    · subst heq
      cases hgf : getField fs k with
      | none =>
        simpa using getField_pick_not_mem rest fs k hnd2.1
      | some v =>
        simp only [Option.map_some']
        rw [getField, List.find?_cons_of_pos _ (by simp)]
        rfl
    · have hne : key ≠ k := fun h => hnd2.1 (h ▸ hmem)
      cases hgf : getField fs key with
      | none => simpa using ih hmem hnd2.2
      | some v =>
        simp only [Option.map_some']
        rw [getField, List.find?_cons_of_neg _ (by simpa using hne)]
        exact ih hmem hnd2.2

theorem pick_keys_subset (keys : List String) (fs : List (String × Json)) :
    ∀ pr ∈ keys.filterMap (fun key => (getField fs key).map (fun v => (key, v))),
      pr.1 ∈ keys := by
  intro pr hpr
  rcases List.mem_filterMap.mp hpr with ⟨key, hkey, hopt⟩
  cases hgf : getField fs key with
  | none => rw [hgf] at hopt; cases hopt
  | some v =>
    rw [hgf] at hopt
    simp only [Option.map_some', Option.some.injEq] at hopt
    rw [← hopt]
    exact hkey

theorem getField_filter_of_ne (fs : List (String × Json)) (k bad : String) (h : k ≠ bad) :
    getField (fs.filter (fun p => p.1 != bad)) k = getField fs k :=
  congrArg (Option.map _)
    (find?_filter_of_imp fs _ _ (fun x hx => by
      have hxk : x.1 = k := by simpa using hx
      simpa [hxk] using h))

theorem any_address_of_getField (fs : List (String × Json)) (v : Json)
    (h : getField fs "address" = some v) :
    fs.any (fun p => p.1 == "address") = true := by
  cases hf : fs.find? (fun p => p.1 == "address") with
  | none => rw [getField, hf] at h; cases h
  | some pr =>
    rw [List.any_eq_true]
    refine ⟨pr, List.mem_of_find?_eq_some hf, ?_⟩
    simpa using List.find?_some hf

theorem getField_rename_of_ne (fs : List (String × Json)) (k : String)
    (h1 : k ≠ "walletAddress") (h2 : k ≠ "address") :
    getField (objFields (renameTopAddressKey (.obj fs))) k = getField fs k := by
  rw [renameTopAddressKey]
  by_cases hany : (fs.any (fun p => p.1 == "address")) = true
  · rw [if_pos hany, objFields, getField,
      List.find?_cons_of_neg _ (by simpa using Ne.symm h1)]
    exact (getField_filter_of_ne (fs.filter (fun p => p.1 != "address")) k
      "walletAddress" h1).trans (getField_filter_of_ne fs k "address" h2)
  · rw [if_neg hany]
    rfl

theorem getField_rename_walletAddress (fs : List (String × Json)) (v : Json)
    (hwa : getField fs "walletAddress" = none)
    (h : getField fs "address" = some v) :
    getField (objFields (renameTopAddressKey (.obj fs))) "walletAddress" = some v := by
  have hrest : getField (fs.filter (fun p => p.1 != "address")) "walletAddress" = none := by
    rw [getField_filter_of_ne fs "walletAddress" "address" (by decide)]
    exact hwa
  rw [renameTopAddressKey, if_pos (any_address_of_getField fs v h), objFields, getField,
    List.find?_cons_of_pos _ (by rfl)]
  simp [hrest, h]

theorem getField_rename_walletAddress_override (fs : List (String × Json)) (v w : Json)
    (h : getField fs "address" = some v)
    (hwa : getField fs "walletAddress" = some w) :
    getField (objFields (renameTopAddressKey (.obj fs))) "walletAddress" = some w := by
  have hrest : getField (fs.filter (fun p => p.1 != "address")) "walletAddress" = some w := by
    rw [getField_filter_of_ne fs "walletAddress" "address" (by decide)]
    exact hwa
  rw [renameTopAddressKey, if_pos (any_address_of_getField fs v h), objFields, getField,
    List.find?_cons_of_pos _ (by rfl)]
  simp [hrest]

/-- C6 (amended): for the `GET`/`POST /api/risk/v2/entities` endpoints the
response object holds only keys among `{walletAddress, risk, riskReason,
status}`; a top-level upstream `address` appears (null-processed) under
`walletAddress` when the body carries no `walletAddress` key of its own,
while a pre-existing `walletAddress` value wins over the renamed one
(object-spread override); and every retained field that is upstream-`null`
appears as the string `"null"`.  The bulk endpoint performs the same
renaming and filtering but applies no null conversion — an upstream `null`
field is returned as JSON `null` — and its per-address error entries have
the shape `{walletAddress, error}`. -/
theorem C6_proxy_response_shaping (fs : List (String × Json)) (k : String) (v w : Json)
    (a e : String) (j : Json) :
    (∀ pr ∈ objFields (entitiesEndpointResponse (.obj fs)), pr.1 ∈ riskFieldKeys) ∧
    (getField fs "walletAddress" = none → getField fs "address" = some v →
      getField (objFields (entitiesEndpointResponse (.obj fs))) "walletAddress" =
        some (processValue v)) ∧
    (getField fs "address" = some v → getField fs "walletAddress" = some w →
      getField (objFields (entitiesEndpointResponse (.obj fs))) "walletAddress" =
        some (processValue w)) ∧
    (k ∈ ["risk", "riskReason", "status"] → getField fs k = some .null →
      getField (objFields (entitiesEndpointResponse (.obj fs))) k = some (.str "null")) ∧
    (processBatchResult ⟨a, some e, j⟩ =
      .obj [("walletAddress", .str a), ("error", .str e)]) ∧
    (k ∈ ["risk", "riskReason", "status"] → getField fs k = some .null →
      getField (objFields (processBatchResult ⟨a, none, .obj fs⟩)) k = some Json.null) := by
  have hnd : riskFieldKeys.Nodup := by decide
  have hent : entitiesEndpointResponse (.obj fs) =
      filterRiskFields (.obj (processValueFields fs)) := rfl
  refine ⟨?_, ?_, ?_, ?_, rfl, ?_⟩
  · intro pr hpr
    rw [hent] at hpr
    exact pick_keys_subset riskFieldKeys _ pr hpr
  · intro hwa h
    have hwa2 : getField (processValueFields fs) "walletAddress" = none := by
      rw [getField_processValueFields, hwa]
      rfl
    have h2 : getField (processValueFields fs) "address" = some (processValue v) := by
      rw [getField_processValueFields, h]
      rfl
    rw [hent, filterRiskFields, objFields,
      getField_pick_mem riskFieldKeys _ "walletAddress" (by decide) hnd,
      getField_rename_walletAddress _ (processValue v) hwa2 h2]
  · intro h hwa
    have hwa2 : getField (processValueFields fs) "walletAddress" = some (processValue w) := by
      rw [getField_processValueFields, hwa]
      rfl
    have h2 : getField (processValueFields fs) "address" = some (processValue v) := by
      rw [getField_processValueFields, h]
      rfl
    rw [hent, filterRiskFields, objFields,
      getField_pick_mem riskFieldKeys _ "walletAddress" (by decide) hnd,
      getField_rename_walletAddress_override _ (processValue v) (processValue w) h2 hwa2]
  · intro hk hnull
    have hmem : k ∈ riskFieldKeys := by
      rw [riskFieldKeys]
      simp only [List.mem_cons] at hk ⊢
      tauto
    have h1 : k ≠ "walletAddress" := by
      rcases (by simpa using hk : k = "risk" ∨ k = "riskReason" ∨ k = "status") with
        rfl | rfl | rfl <;> decide
    have h2 : k ≠ "address" := by
      rcases (by simpa using hk : k = "risk" ∨ k = "riskReason" ∨ k = "status") with
        rfl | rfl | rfl <;> decide
    rw [hent, filterRiskFields, objFields,
      getField_pick_mem riskFieldKeys _ k hmem hnd,
      getField_rename_of_ne _ k h1 h2,
      getField_processValueFields, hnull]
    rfl
  · intro hk hnull
    have hmem : k ∈ riskFieldKeys := by
      rw [riskFieldKeys]
      simp only [List.mem_cons] at hk ⊢
      tauto
    have h1 : k ≠ "walletAddress" := by
      rcases (by simpa using hk : k = "risk" ∨ k = "riskReason" ∨ k = "status") with
        rfl | rfl | rfl <;> decide
    have h2 : k ≠ "address" := by
      rcases (by simpa using hk : k = "risk" ∨ k = "riskReason" ∨ k = "status") with
        rfl | rfl | rfl <;> decide
    have hbatch : processBatchResult ⟨a, none, .obj fs⟩ = filterRiskFields (.obj fs) := rfl
    rw [hbatch, filterRiskFields, objFields,
      getField_pick_mem riskFieldKeys _ k hmem hnd,
      getField_rename_of_ne _ k h1 h2, hnull]

/-- Upstream assessment with a `null` risk field, as the bulk endpoint would
receive it. -/
def bulkNullAssessment : List (String × Json) :=
  [("address", .str "0x742d35cc6634c0532925A3B8d8c3C4D8e6C8a8c8"),
   ("risk", .null),
   ("status", .str "COMPLETE")]

/-- C6 counterexample: routed through the bulk endpoint
(`processBatchResults`), the upstream-`null` field `risk` stays JSON `null`
in the output — it is not replaced by the string `"null"` — while the same
body through `GET`/`POST /api/risk/v2/entities` does yield `"null"`;
refuting "every field whose upstream JSON value is null appears in the
proxy's output as the literal string \"null\"" for the bulk endpoint. -/
theorem C6_counterexample_bulk_null_not_stringified :
    getField (objFields (processBatchResult
      ⟨"0x742d35cc6634c0532925A3B8d8c3C4D8e6C8a8c8", none, .obj bulkNullAssessment⟩))
      "risk" = some Json.null ∧
    Json.null ≠ Json.str "null" ∧
    getField (objFields (entitiesEndpointResponse (.obj bulkNullAssessment))) "risk" =
      some (.str "null") :=
  ⟨rfl, fun h => Json.noConfusion h, rfl⟩

/-- Upstream body carrying both an `address` key and a pre-existing
`walletAddress` key (the object-spread override case). -/
def overrideAssessment : List (String × Json) :=
  [("address", .str "0x742d35cc6634c0532925A3B8d8c3C4D8e6C8a8c8"),
   ("walletAddress", .str "0x4E6f1cB8C7A2E3A2DeAb69c4e0A9F798D6FcF8B8"),
   ("risk", .str "Low")]

theorem C6_proxy_response_shaping_witness :
    (∀ pr ∈ objFields (entitiesEndpointResponse (.obj bulkNullAssessment)),
      pr.1 ∈ riskFieldKeys) ∧
    getField (objFields (entitiesEndpointResponse (.obj bulkNullAssessment)))
      "walletAddress" =
      some (processValue (.str "0x742d35cc6634c0532925A3B8d8c3C4D8e6C8a8c8")) ∧
    getField (objFields (entitiesEndpointResponse (.obj overrideAssessment)))
      "walletAddress" =
      some (processValue (.str "0x4E6f1cB8C7A2E3A2DeAb69c4e0A9F798D6FcF8B8")) ∧
    getField (objFields (entitiesEndpointResponse (.obj bulkNullAssessment))) "risk" =
      some (.str "null") ∧
    processBatchResult ⟨"0xdead", some "Failed to fetch risk assessment", .obj []⟩ =
      .obj [("walletAddress", .str "0xdead"),
            ("error", .str "Failed to fetch risk assessment")] ∧
    getField (objFields (processBatchResult
      ⟨"0x742d35cc6634c0532925A3B8d8c3C4D8e6C8a8c8", none, .obj bulkNullAssessment⟩))
      "risk" = some Json.null :=
  have h := C6_proxy_response_shaping bulkNullAssessment "risk"
    (.str "0x742d35cc6634c0532925A3B8d8c3C4D8e6C8a8c8") Json.null
    "0xdead" "Failed to fetch risk assessment" (.obj [])
  have hov := C6_proxy_response_shaping overrideAssessment "risk"
    (.str "0x742d35cc6634c0532925A3B8d8c3C4D8e6C8a8c8")
    (.str "0x4E6f1cB8C7A2E3A2DeAb69c4e0A9F798D6FcF8B8")
    "0xdead" "Failed to fetch risk assessment" (.obj [])
  ⟨h.1, h.2.1 rfl rfl, hov.2.2.1 rfl rfl, h.2.2.2.1 (by decide) rfl,
   h.2.2.2.2.1, h.2.2.2.2.2 (by decide) rfl⟩
